import Mathlib

/-!
A shallow embedding of `bot.py` from the FactCheckMate Telegram bot.

Handlers are modelled as pure functions from an `Update`-like input, a
`World` of external-call outcomes (database write, fact-check search API
response, completion API outcome) and the current state (persisted claim
store, in-memory feedback map) to a `Trace` recording the new state, how
many external lookup / completion calls were made, the replies sent, and
whether the handler raised an uncaught exception.

Python string operations are embedded at the level of `List Char`
(Python `str` is a sequence of code points): `s[:50]` is `List.take 50`,
`s.replace(" ", "_")` is a character map, `s.split(":")` and `s.split()`
are `splitBy` below.
-/

namespace FactCheckMate

/-- Splitting of a character list at every character satisfying `p`,
keeping empty segments: the behaviour of Python `str.split(sep)` for a
one-character `sep` (with `p` matching exactly `sep`). -/
def splitBy (p : Char → Bool) : List Char → List (List Char)
  | [] => [[]]
  | x :: xs =>
    if p x then [] :: splitBy p xs
    else
      match splitBy p xs with
      | [] => [[x]]
      | h :: t => (x :: h) :: t

/-- Python `s.split(":")`: split on every colon, keeping empty parts. -/
def pySplitColon (s : String) : List String :=
  (splitBy (fun c => c = ':') s.data).map (fun l => ⟨l⟩)

/-- Python `s.split()` (no argument): split on whitespace runs, dropping
empty parts. -/
def pyWords (s : String) : List String :=
  ((splitBy (fun c => c.isWhitespace) s.data).filter (fun l => l ≠ [])).map
    (fun l => ⟨l⟩)

/-- Python `" ".join(args)` (line 123 of `bot.py`). -/
def pyJoin (args : List String) : String :=
  String.intercalate " " args

/-- The ephemeral claim identifier `claim[:50].replace(" ", "_")`
(line 130 of `bot.py`): first 50 characters, spaces replaced by
underscores. -/
def claimIdOf (claim : String) : String :=
  ⟨(claim.data.take 50).map (fun c => if c = ' ' then '_' else c)⟩

/-- Outcome of running a piece of Python code: a returned value, or an
uncaught exception. -/
inductive PyResult (α : Type) where
  | ok (a : α)
  | exn
deriving DecidableEq

/-- Publisher sub-object of a claim review in the search API response. -/
structure Publisher where
  name : Option String
deriving DecidableEq

/-- One entry of the `claimReview` array in the search API response;
`none` fields are absent JSON keys. -/
structure Review where
  textualRating : Option String
  publisher : Option Publisher
  url : Option String
deriving DecidableEq

/-- One entry of the `claims` array in the search API response. -/
structure ClaimObj where
  text : Option String
  claimant : Option String
  claimReview : Option (List Review)
deriving DecidableEq

/-- The JSON body returned by the fact-check search endpoint; `claims`
is `none` when the key is absent or null. -/
structure ApiResponse where
  claims : Option (List ClaimObj)
deriving DecidableEq

/-- The reply string built by `query_google_fact_check_api`
(lines 65-71 of `bot.py`). -/
def formatResult (text source rating pub url : String) : String :=
  "🔎 *Claim:* " ++ text ++ "\n" ++
  "👤 *Source:* " ++ source ++ "\n" ++
  "📝 *Rating:* " ++ rating ++ "\n" ++
  "🏢 *Publisher:* " ++ pub ++ "\n" ++
  "🔗 [Read more](" ++ url ++ ")"

/-- Embedding of `query_google_fact_check_api` (lines 48-71 of
`bot.py`), as a function of the JSON body the API returned.
`PyResult.exn` is an uncaught Python exception: the nested review
indexing raises `IndexError` when `claimReview` is present but an
empty list. `PyResult.ok none` is Python `return None`. -/
def query_google_fact_check_api (data : ApiResponse) : PyResult (Option String) :=
  match data.claims with
  | none => PyResult.ok none
  | some [] => PyResult.ok none
  | some (c :: _) =>
    let text := c.text.getD "Unknown"
    let source := c.claimant.getD "Unknown"
    match c.claimReview.getD [⟨none, none, none⟩] with
    | [] => PyResult.exn
    | review :: _ =>
      let rating := review.textualRating.getD "Unrated"
      let pub :=
        match review.publisher with
        | none => "Unknown"
        | some p => p.name.getD "Unknown"
      let url := review.url.getD ""
      PyResult.ok (some (formatResult text source rating pub url))

/-- The fixed unavailability message of `ai_suggest_fact_check`
(line 89 of `bot.py`). -/
def aiUnavailableMsg : String := "⚠️ AI check unavailable right now."

/-- Embedding of `ai_suggest_fact_check` (lines 73-89 of `bot.py`),
as a function of the completion-API call outcome: the `try` block
catches every exception and returns the fixed unavailability message,
so the function itself never raises. -/
def ai_suggest_fact_check (aiOutcome : PyResult String) : String :=
  match aiOutcome with
  | PyResult.ok content => "🤖 *AI Suggestion:*\n\n" ++ content
  | PyResult.exn => aiUnavailableMsg

/-- Outcomes of the external calls a handler may make: whether the
`log_claim` database write succeeds, the search API response body, and
the completion API outcome. -/
structure World where
  dbOk : Bool
  api : ApiResponse
  ai : PyResult String

/-- The sender of an update (`update.effective_user`). Telegram user
ids are nonnegative integers. -/
structure UserInfo where
  id : Nat
  username : Option String
deriving DecidableEq

/-- One row of the persisted `claims` table as written by `log_claim`
(lines 104-110 of `bot.py`). -/
structure ClaimRec where
  user_id : Nat
  username : Option String
  claim : String
deriving DecidableEq

/-- One reply sent by a handler: its text, and the claim identifier on
the attached vote keyboard when one is attached. -/
structure Reply where
  text : String
  buttons : Option String
deriving DecidableEq

/-- What one handler invocation did: resulting claim store, number of
search-API calls, number of completion-API calls, replies sent, and
whether an uncaught exception escaped the handler. -/
structure Trace where
  store : List ClaimRec
  lookupCalls : Nat
  aiCalls : Nat
  replies : List Reply
  raised : Bool
deriving DecidableEq

/-- The usage hint sent by `factcheck` with no arguments (line 120 of
`bot.py`). -/
def usageMsg : String := "❗ Usage: /factcheck <your claim>"

/-- Embedding of the `factcheck` handler (lines 118-136 of `bot.py`).
With no arguments it replies with the usage hint; otherwise it writes
the claim to the store (aborting if the write fails), performs the
lookup, falls back to the completion API when the lookup returns a
falsy result, and replies with vote buttons keyed by the ephemeral
claim identifier. -/
def factcheck (u : UserInfo) (args : List String) (w : World) (s : List ClaimRec) : Trace :=
  match args with
  | [] => ⟨s, 0, 0, [⟨usageMsg, none⟩], false⟩
  | _ :: _ =>
    if w.dbOk then
      let claim := pyJoin args
      let s2 := s ++ [⟨u.id, u.username, claim⟩]
      match query_google_fact_check_api w.api with
      | PyResult.exn => ⟨s2, 1, 0, [], true⟩
      | PyResult.ok qres =>
        match qres with
        | none => ⟨s2, 1, 1, [⟨ai_suggest_fact_check w.ai, some (claimIdOf claim)⟩], false⟩
        | some t =>
          if t = "" then
            ⟨s2, 1, 1, [⟨ai_suggest_fact_check w.ai, some (claimIdOf claim)⟩], false⟩
          else
            ⟨s2, 1, 0, [⟨t, some (claimIdOf claim)⟩], false⟩
    else ⟨s, 0, 0, [], true⟩

/-- The three pre-written trending items of `quicknews` (lines 139-143
of `bot.py`). -/
def trending : List String :=
  ["📰 *Claim:* Earth is flat\n📝 *Rating:* False\n🔗 [More](https://en.wikipedia.org/wiki/Spherical_Earth)",
   "📰 *Claim:* COVID vaccines cause autism\n📝 *Rating:* False\n🔗 [CDC](https://www.cdc.gov)",
   "📰 *Claim:* Climate change is a hoax\n📝 *Rating:* False\n🔗 [NASA](https://climate.nasa.gov)"]

/-- Embedding of the `quicknews` handler (lines 138-144 of `bot.py`):
a single static reply, no store access, no external call. -/
def quicknews (u : UserInfo) (w : World) (s : List ClaimRec) : Trace :=
  ⟨s, 0, 0, [⟨"🔥 *Trending Fact-Checks:*\n\n" ++ String.intercalate "\n\n" trending, none⟩],
   false⟩

/-- The header prepended to auto fact-check replies (line 158 of
`bot.py`). -/
def autoHeader : String := "📢 Auto Fact-Check:\n\n"

/-- Embedding of the `auto_fact_check` handler (lines 146-158 of
`bot.py`): returns without action unless the sender is an admin and
the message has at least 4 whitespace-separated words; otherwise runs
the lookup (with completion fallback) and replies with the prefixed
result. It never touches the claim store. -/
def auto_fact_check (u : UserInfo) (text : String) (adminIds : List Nat) (w : World)
    (s : List ClaimRec) : Trace :=
  if u.id ∈ adminIds then
    if (pyWords text).length < 4 then ⟨s, 0, 0, [], false⟩
    else
      match query_google_fact_check_api w.api with
      | PyResult.exn => ⟨s, 1, 0, [], true⟩
      | PyResult.ok qres =>
        match qres with
        | none => ⟨s, 1, 1, [⟨autoHeader ++ ai_suggest_fact_check w.ai, none⟩], false⟩
        | some t =>
          if t = "" then ⟨s, 1, 1, [⟨autoHeader ++ ai_suggest_fact_check w.ai, none⟩], false⟩
          else ⟨s, 1, 0, [⟨autoHeader ++ t, none⟩], false⟩
  else ⟨s, 0, 0, [], false⟩

/-- The callback payloads of the two vote buttons built by
`create_vote_buttons` (lines 112-116 of `bot.py`). -/
def create_vote_buttons (claim_id : String) : String × String :=
  ("vote_yes:" ++ claim_id, "vote_no:" ++ claim_id)

/-- The in-memory `feedback_store` dict (line 28 of `bot.py`), as an
association list from key to stored vote value; the stored value for a
key is the first binding found. -/
abbrev FeedbackStore := List (String × String)

/-- The composite vote key `f"{claim_id}_{query.from_user.id}"`
(line 164 of `bot.py`). -/
def mkVoteKey (claim_id : String) (voterId : Nat) : String :=
  claim_id ++ "_" ++ Nat.repr voterId

/-- The duplicate-vote reply (line 167 of `bot.py`). -/
def alreadyVotedMsg : String := "✅ You already voted."

/-- The accepted-vote reply (line 171 of `bot.py`). -/
def thanksMsg : String := "🙌 Thanks for your feedback!"

/-- Embedding of the `vote_handler` callback handler (lines 160-171 of
`bot.py`). `vote_type, claim_id = query.data.split(":")` raises
`ValueError` (modelled as `PyResult.exn`) unless the split yields
exactly two parts; otherwise the handler checks the composite key in
the feedback store and either replies "already voted" leaving the
store unchanged, or records the vote and replies with thanks. -/
def vote_handler (data : String) (voterId : Nat) (store : FeedbackStore) :
    PyResult (String × FeedbackStore) :=
  match pySplitColon data with
  | [vote_type, claim_id] =>
    let key := mkVoteKey claim_id voterId
    if (store.lookup key).isSome then PyResult.ok (alreadyVotedMsg, store)
    else PyResult.ok (thanksMsg, (key, vote_type) :: store)
  | _ => PyResult.exn

/-- Base-10 value of a decimal digit character, inverse of
`Nat.digitChar` on `0..9`. -/
def digitVal (c : Char) : Nat :=
  if c = '0' then 0 else if c = '1' then 1 else if c = '2' then 2
  else if c = '3' then 3 else if c = '4' then 4 else if c = '5' then 5
  else if c = '6' then 6 else if c = '7' then 7 else if c = '8' then 8
  else if c = '9' then 9 else 0

/-- Base-10 evaluation of a digit-character list, most significant
first. -/
def evalDigits (l : List Char) : Nat :=
  l.foldl (fun acc c => 10 * acc + digitVal c) 0

/-! Helper lemmas about the split embedding. -/

theorem splitBy_ne_nil (p : Char → Bool) (l : List Char) : splitBy p l ≠ [] := by
  induction l with
  | nil => simp [splitBy]
  | cons x xs ih =>
    simp only [splitBy]
    by_cases hx : p x
    · simp [hx]
    · simp only [hx, if_false]
      cases hr : splitBy p xs with
      | nil => simp
      | cons h t => simp

theorem splitBy_of_forall_not (p : Char → Bool) (l : List Char)
    (h : ∀ c ∈ l, p c = false) : splitBy p l = [l] := by
  induction l with
  | nil => rfl
  | cons x xs ih =>
    have hx : p x = false := h x (List.mem_cons_self x xs)
    have ihx := ih (fun c hc => h c (List.mem_cons_of_mem x hc))
    simp [splitBy, hx, ihx]

theorem splitBy_sep (p : Char → Bool) (a rest : List Char) (x : Char)
    (ha : ∀ c ∈ a, p c = false) (hx : p x = true) :
    splitBy p (a ++ x :: rest) = a :: splitBy p rest := by
  induction a with
  | nil => simp [splitBy, hx]
  | cons y ys ih =>
    have hy : p y = false := ha y (List.mem_cons_self y ys)
    have ihy := ih (fun c hc => ha c (List.mem_cons_of_mem y hc))
    simp [splitBy, hy, ihy]

theorem splitBy_two (p : Char → Bool) (a b : List Char) (x : Char)
    (ha : ∀ c ∈ a, p c = false) (hb : ∀ c ∈ b, p c = false) (hx : p x = true) :
    splitBy p (a ++ x :: b) = [a, b] := by
  rw [splitBy_sep p a b x ha hx, splitBy_of_forall_not p b hb]

theorem string_mk_data (s : String) : String.mk s.data = s := rfl

theorem string_data_inj (s t : String) (h : s.data = t.data) : s = t := by
  cases s; cases t; exact congrArg String.mk h

theorem pySplitColon_two (t cid : String) (ht : ':' ∉ t.data) (hc : ':' ∉ cid.data) :
    pySplitColon (t ++ ":" ++ cid) = [t, cid] := by
  have hdata : (t ++ ":" ++ cid).data = t.data ++ ':' :: cid.data := by
    rw [String.data_append, String.data_append]
    simp
  have hta : ∀ c ∈ t.data, (decide (c = ':')) = false := by
    intro c hcm
    simp only [decide_eq_false_iff_not]
    intro he
    exact ht (he ▸ hcm)
  have hca : ∀ c ∈ cid.data, (decide (c = ':')) = false := by
    intro c hcm
    simp only [decide_eq_false_iff_not]
    intro he
    exact hc (he ▸ hcm)
  unfold pySplitColon
  rw [hdata, splitBy_two _ _ _ _ hta hca (by simp)]
  rfl

/-! Helper lemmas about decimal representations of user ids, leading to
injectivity of the composite vote key. -/

theorem digitVal_digitChar (k : Nat) (h : k < 10) : digitVal (Nat.digitChar k) = k := by
  interval_cases k <;> rfl

theorem digitChar_ne_underscore (k : Nat) (h : k < 10) : Nat.digitChar k ≠ '_' := by
  interval_cases k <;> decide

theorem toDigitsCore_append (b fuel : Nat) :
    ∀ (n : Nat) (acc : List Char),
      Nat.toDigitsCore b fuel n acc = Nat.toDigitsCore b fuel n [] ++ acc := by
  induction fuel with
  | zero => intro n acc; simp [Nat.toDigitsCore]
  | succ f ih =>
    intro n acc
    simp only [Nat.toDigitsCore]
    by_cases h : n / b = 0
    · simp [h]
    · rw [if_neg h, if_neg h, ih (n / b) (Nat.digitChar (n % b) :: acc),
        ih (n / b) [Nat.digitChar (n % b)], List.append_assoc]
      rfl

theorem evalDigits_append (l : List Char) (c : Char) :
    evalDigits (l ++ [c]) = 10 * evalDigits l + digitVal c := by
  simp [evalDigits, List.foldl_append]

theorem evalDigits_toDigitsCore :
    ∀ fuel n : Nat, n < fuel → evalDigits (Nat.toDigitsCore 10 fuel n []) = n := by
  intro fuel
  induction fuel with
  | zero => intro n h; omega
  | succ f ih =>
    intro n h
    simp only [Nat.toDigitsCore]
    by_cases h0 : n / 10 = 0
    · rw [if_pos h0]
      have h1 : evalDigits [Nat.digitChar (n % 10)] = digitVal (Nat.digitChar (n % 10)) := by
        simp [evalDigits]
      rw [h1, digitVal_digitChar _ (by omega)]
      omega
    · rw [if_neg h0, toDigitsCore_append, evalDigits_append, ih (n / 10) (by omega),
        digitVal_digitChar _ (by omega)]
      omega

theorem nat_repr_inj (m n : Nat) (h : Nat.repr m = Nat.repr n) : m = n := by
  have hd : Nat.toDigitsCore 10 (m + 1) m [] = Nat.toDigitsCore 10 (n + 1) n [] :=
    congrArg String.data h
  have h1 := evalDigits_toDigitsCore (m + 1) m (by omega)
  have h2 := evalDigits_toDigitsCore (n + 1) n (by omega)
  rw [hd] at h1
  omega

theorem toDigitsCore_no_underscore :
    ∀ fuel n : Nat, ∀ acc : List Char, '_' ∉ acc → '_' ∉ Nat.toDigitsCore 10 fuel n acc := by
  intro fuel
  induction fuel with
  | zero => intro n acc h; simpa [Nat.toDigitsCore] using h
  | succ f ih =>
    intro n acc h
    simp only [Nat.toDigitsCore]
    by_cases h0 : n / 10 = 0
    · rw [if_pos h0]
      intro hmem
      rcases List.mem_cons.mp hmem with he | hm
      · exact digitChar_ne_underscore (n % 10) (by omega) he.symm
      · exact h hm
    · rw [if_neg h0]
      apply ih
      intro hmem
      rcases List.mem_cons.mp hmem with he | hm
      · exact digitChar_ne_underscore (n % 10) (by omega) he.symm
      · exact h hm

theorem repr_no_underscore (n : Nat) : '_' ∉ (Nat.repr n).data :=
  toDigitsCore_no_underscore (n + 1) n [] (by simp)

theorem sep_first {α : Type} {x : α} :
    ∀ a b u v : List α, x ∉ a → x ∉ b → a ++ x :: u = b ++ x :: v → a = b ∧ u = v := by
  intro a
  induction a with
  | nil =>
    intro b u v _ hb h
    cases b with
    | nil => simpa using h
    | cons y bs =>
      rw [List.nil_append, List.cons_append, List.cons.injEq] at h
      exact absurd (h.1 ▸ List.mem_cons_self y bs) hb
  | cons y as ih =>
    intro b u v ha hb h
    cases b with
    | nil =>
      rw [List.nil_append, List.cons_append, List.cons.injEq] at h
      exact absurd (h.1.symm ▸ List.mem_cons_self y as) ha
    | cons z bs =>
      rw [List.cons_append, List.cons_append, List.cons.injEq] at h
      obtain ⟨hz, h2⟩ := h
      have hrec := ih bs u v (fun hm => ha (List.mem_cons_of_mem y hm))
        (fun hm => hb (List.mem_cons_of_mem z hm)) h2
      exact ⟨by rw [hz, hrec.1], hrec.2⟩

theorem sep_last {α : Type} {x : α} (a b u v : List α) (hu : x ∉ u) (hv : x ∉ v)
    (h : a ++ x :: u = b ++ x :: v) : a = b ∧ u = v := by
  have h2 : u.reverse ++ x :: a.reverse = v.reverse ++ x :: b.reverse := by
    have hr := congrArg List.reverse h
    simpa [List.reverse_append, List.append_assoc] using hr
  have h3 := sep_first u.reverse v.reverse a.reverse b.reverse
    (by simpa using hu) (by simpa using hv) h2
  constructor
  · have := h3.2
    simpa using this
  · have := h3.1
    simpa using this

theorem mkVoteKey_data (cid : String) (v : Nat) :
    (mkVoteKey cid v).data = cid.data ++ '_' :: (Nat.repr v).data := by
  unfold mkVoteKey
  rw [String.data_append, String.data_append]
  simp

theorem mkVoteKey_inj (c1 c2 : String) (u v : Nat) (h : mkVoteKey c1 u = mkVoteKey c2 v) :
    c1 = c2 ∧ u = v := by
  have hd : c1.data ++ '_' :: (Nat.repr u).data = c2.data ++ '_' :: (Nat.repr v).data := by
    rw [← mkVoteKey_data, ← mkVoteKey_data, h]
  have h2 := sep_last c1.data c2.data (Nat.repr u).data (Nat.repr v).data
    (repr_no_underscore u) (repr_no_underscore v) hd
  refine ⟨string_data_inj _ _ h2.1, nat_repr_inj u v ?_⟩
  exact string_data_inj _ _ h2.2

/-! Helper lemmas about the vote handler. -/

theorem lookup_cons_self (k v : String) (s : FeedbackStore) :
    List.lookup k ((k, v) :: s) = some v := by
  simp [List.lookup]

theorem lookup_cons_ne (k k2 v : String) (s : FeedbackStore) (h : k ≠ k2) :
    List.lookup k ((k2, v) :: s) = List.lookup k s := by
  have hbe : (k == k2) = false := beq_false_of_ne h
  simp [List.lookup, hbe]

theorem vote_handler_wf (t cid : String) (ht : ':' ∉ t.data) (hc : ':' ∉ cid.data)
    (v : Nat) (store : FeedbackStore) :
    vote_handler (t ++ ":" ++ cid) v store =
      if (store.lookup (mkVoteKey cid v)).isSome then PyResult.ok (alreadyVotedMsg, store)
      else PyResult.ok (thanksMsg, (mkVoteKey cid v, t) :: store) := by
  unfold vote_handler
  rw [pySplitColon_two t cid ht hc]

theorem vote_handler_ok_inv (d : String) (u : Nat) (s s1 : FeedbackStore) (m : String)
    (h : vote_handler d u s = PyResult.ok (m, s1)) :
    ∃ t cid, pySplitColon d = [t, cid] ∧
      (((s.lookup (mkVoteKey cid u)).isSome ∧ m = alreadyVotedMsg ∧ s1 = s) ∨
       (s.lookup (mkVoteKey cid u) = none ∧ m = thanksMsg ∧
        s1 = (mkVoteKey cid u, t) :: s)) := by
  unfold vote_handler at h
  cases hsp : pySplitColon d with
  | nil => rw [hsp] at h; exact absurd h (by simp)
  | cons a l =>
    cases l with
    | nil => rw [hsp] at h; exact absurd h (by simp)
    | cons b l2 =>
      cases l2 with
      | cons c l3 => rw [hsp] at h; exact absurd h (by simp)
      | nil =>
        rw [hsp] at h
        dsimp only at h
        refine ⟨a, b, rfl, ?_⟩
        by_cases hl : (s.lookup (mkVoteKey b u)).isSome
        · rw [if_pos hl] at h
          left
          have := PyResult.ok.inj h
          exact ⟨hl, (Prod.mk.injEq _ _ _ _ ▸ this).1.symm, (Prod.mk.injEq _ _ _ _ ▸ this).2.symm⟩
        · rw [if_neg hl] at h
          right
          have := PyResult.ok.inj h
          refine ⟨Option.not_isSome_iff_eq_none.mp hl,
            (Prod.mk.injEq _ _ _ _ ▸ this).1.symm, (Prod.mk.injEq _ _ _ _ ▸ this).2.symm⟩

/-! Helper lemmas about the command handlers. -/

theorem factcheck_store_append (u : UserInfo) (a : String) (as : List String) (w : World)
    (s : List ClaimRec) (hdb : w.dbOk = true) :
    (factcheck u (a :: as) w s).store = s ++ [⟨u.id, u.username, pyJoin (a :: as)⟩] := by
  simp only [factcheck, hdb, if_true]
  cases hq : query_google_fact_check_api w.api with
  | exn => rfl
  | ok qres =>
    cases qres with
    | none => rfl
    | some t => by_cases ht : t = "" <;> simp [ht]

theorem auto_fact_check_store (u : UserInfo) (text : String) (admins : List Nat) (w : World)
    (s : List ClaimRec) : (auto_fact_check u text admins w s).store = s := by
  unfold auto_fact_check
  by_cases hmem : u.id ∈ admins
  · rw [if_pos hmem]
    by_cases hlen : (pyWords text).length < 4
    · rw [if_pos hlen]
    · rw [if_neg hlen]
      cases hq : query_google_fact_check_api w.api with
      | exn => rfl
      | ok qres =>
        cases qres with
        | none => rfl
        | some t => by_cases ht : t = "" <;> simp [ht]
  · rw [if_neg hmem]

/-! The claims. -/

/-- C1, counterexample: the ephemeral claim identifier derived from the
claim text "a: b" contains a colon, and the very first vote button
press for the pair (that identifier, voter 7) — whose key is absent
from the empty feedback store — raises `ValueError` instead of
returning Accepted and storing the vote. -/
theorem vote_first_press_colon_id_raises :
    claimIdOf "a: b" = "a:_b"
    ∧ List.lookup (mkVoteKey (claimIdOf "a: b") 7) ([] : FeedbackStore) = none
    ∧ vote_handler (create_vote_buttons (claimIdOf "a: b")).1 7 [] = PyResult.exn :=
  ⟨rfl, rfl, by decide⟩

/-- C1, amended: for every (ephemeral claim identifier, voter id) pair
whose identifier contains no colon, the first vote button press
returns Accepted (the thanks reply) and stores that vote value, and
every subsequent press with the same pair returns AlreadyVoted and
leaves the store (hence the stored value) unchanged: first vote wins. -/
theorem vote_first_wins_colon_free (cid : String) (hc : ':' ∉ cid.data) (v : Nat)
    (t1 t2 : String) (ht1 : t1 = "vote_yes" ∨ t1 = "vote_no")
    (ht2 : t2 = "vote_yes" ∨ t2 = "vote_no") (s : FeedbackStore)
    (hs : List.lookup (mkVoteKey cid v) s = none) :
    vote_handler (t1 ++ ":" ++ cid) v s = PyResult.ok (thanksMsg, (mkVoteKey cid v, t1) :: s)
    ∧ List.lookup (mkVoteKey cid v) ((mkVoteKey cid v, t1) :: s) = some t1
    ∧ ∀ s2, List.lookup (mkVoteKey cid v) s2 = some t1 →
        vote_handler (t2 ++ ":" ++ cid) v s2 = PyResult.ok (alreadyVotedMsg, s2) := by
  have ht1c : ':' ∉ t1.data := by rcases ht1 with h | h <;> subst h <;> decide
  have ht2c : ':' ∉ t2.data := by rcases ht2 with h | h <;> subst h <;> decide
  refine ⟨?_, lookup_cons_self _ _ _, ?_⟩
  · rw [vote_handler_wf t1 cid ht1c hc v s, hs]
    rfl
  · intro s2 hs2
    rw [vote_handler_wf t2 cid ht2c hc v s2, hs2]
    rfl

/-- C1, witness: voter 42 presses "vote_yes" on identifier
"Earth_is_flat" and is accepted with the vote stored; the same voter
pressing "vote_no" on the same identifier afterwards gets the
already-voted reply and the store is unchanged. -/
theorem vote_first_wins_witness :
    vote_handler ("vote_yes" ++ ":" ++ "Earth_is_flat") 42 [] =
      PyResult.ok (thanksMsg, [(mkVoteKey "Earth_is_flat" 42, "vote_yes")])
    ∧ vote_handler ("vote_no" ++ ":" ++ "Earth_is_flat") 42
        [(mkVoteKey "Earth_is_flat" 42, "vote_yes")] =
      PyResult.ok (alreadyVotedMsg, [(mkVoteKey "Earth_is_flat" 42, "vote_yes")]) := by
  have h := vote_first_wins_colon_free "Earth_is_flat" (by decide) 42 "vote_yes" "vote_no"
    (Or.inl rfl) (Or.inr rfl) [] rfl
  exact ⟨h.1, h.2.2 _ (lookup_cons_self _ _ _)⟩

/-- C2, counterexample: a qualifying group message — sender 7 is in
the admin set, the text has 4 words — triggers the auto-check path
(one lookup is made), yet no claim record is appended to the claim
store. -/
theorem auto_check_does_not_log :
    (7 : Nat) ∈ ([7] : List Nat)
    ∧ 4 ≤ (pyWords "the earth is flat").length
    ∧ (auto_fact_check ⟨7, none⟩ "the earth is flat" [7]
        ⟨true, ⟨none⟩, PyResult.ok "ok"⟩ []).lookupCalls = 1
    ∧ (auto_fact_check ⟨7, none⟩ "the earth is flat" [7]
        ⟨true, ⟨none⟩, PyResult.ok "ok"⟩ []).store = [] :=
  ⟨by decide, by decide, by decide, by decide⟩

/-- C2, amended: a claim record is appended to the claim store on
every `/factcheck` invocation with at least one argument whose
database write succeeds; qualifying group messages (and `/quicknews`)
never write to the store; and no operation ever updates or deletes a
record — every handler leaves the store equal to the old store plus
appended records. -/
theorem claim_store_appends (u : UserInfo) (args args2 : List String) (text : String)
    (admins : List Nat) (w w2 : World) (s : List ClaimRec)
    (hargs : args ≠ []) (hdb : w.dbOk = true) :
    (factcheck u args w s).store = s ++ [⟨u.id, u.username, pyJoin args⟩]
    ∧ (auto_fact_check u text admins w2 s).store = s
    ∧ (quicknews u w s).store = s
    ∧ ∃ t, (factcheck u args2 w2 s).store = s ++ t := by
  refine ⟨?_, auto_fact_check_store u text admins w2 s, rfl, ?_⟩
  · cases args with
    | nil => exact absurd rfl hargs
    | cons a as => exact factcheck_store_append u a as w s hdb
  · cases args2 with
    | nil => exact ⟨[], by simp [factcheck]⟩
    | cons a as =>
      by_cases hdb2 : w2.dbOk = true
      · exact ⟨[⟨u.id, u.username, pyJoin (a :: as)⟩], factcheck_store_append u a as w2 s hdb2⟩
      · refine ⟨[], ?_⟩
        have hdb2f : w2.dbOk = false := by
          cases hw : w2.dbOk
          · rfl
          · exact absurd hw hdb2
        simp [factcheck, hdb2f]

/-- C2, witness: a `/factcheck hello world` invocation from user 5
appends exactly one record to the empty store; a qualifying group
message leaves the store empty. -/
theorem claim_store_appends_witness :
    (factcheck ⟨5, some "u"⟩ ["hello", "world"] ⟨true, ⟨none⟩, PyResult.ok "y"⟩ []).store =
      [] ++ [⟨5, some "u", pyJoin ["hello", "world"]⟩]
    ∧ (auto_fact_check ⟨7, none⟩ "a b c d" [7] ⟨true, ⟨none⟩, PyResult.ok "y"⟩ []).store = [] := by
  have h := claim_store_appends ⟨5, some "u"⟩ ["hello", "world"] [] "a b c d" [7]
    ⟨true, ⟨none⟩, PyResult.ok "y"⟩ ⟨true, ⟨none⟩, PyResult.ok "y"⟩ [] (by decide) rfl
  exact ⟨h.1, h.2.1⟩

/-- C3, counterexample: for a response whose single claim has no
fields at all, the lookup substitutes "Unknown"/"Unrated" for the
text, claimant, rating and publisher — but the absent review link
becomes the empty string, not the "Unknown" or "Unrated" placeholder
the claim asserts for every absent field. -/
theorem lookup_missing_url_empty_string :
    query_google_fact_check_api ⟨some [⟨none, none, none⟩]⟩ =
      PyResult.ok (some (formatResult "Unknown" "Unknown" "Unrated" "Unknown" ""))
    ∧ formatResult "Unknown" "Unknown" "Unrated" "Unknown" "" ≠
        formatResult "Unknown" "Unknown" "Unrated" "Unknown" "Unknown"
    ∧ formatResult "Unknown" "Unknown" "Unrated" "Unknown" "" ≠
        formatResult "Unknown" "Unknown" "Unrated" "Unknown" "Unrated" :=
  ⟨by decide, by decide, by decide⟩

/-- C3, amended: the lookup returns None exactly when the response
contains no claims (absent or empty array); otherwise it builds its
result from the first matching claim only, substituting "Unknown" for
absent claim text, claimant and publisher name, "Unrated" for an
absent rating, and the empty string for an absent review link — and
raises when the first claim has a present-but-empty review array. -/
theorem lookup_characterization (r : ApiResponse) (c : ClaimObj) (rest : List ClaimObj)
    (rv : Review) (rvs : List Review) :
    (query_google_fact_check_api r = PyResult.ok none ↔
      (r.claims = none ∨ r.claims = some []))
    ∧ query_google_fact_check_api ⟨some (c :: rest)⟩ = query_google_fact_check_api ⟨some [c]⟩
    ∧ (c.claimReview = some (rv :: rvs) →
        query_google_fact_check_api ⟨some (c :: rest)⟩ =
          PyResult.ok (some (formatResult (c.text.getD "Unknown") (c.claimant.getD "Unknown")
            (rv.textualRating.getD "Unrated")
            (match rv.publisher with
             | none => "Unknown"
             | some p => p.name.getD "Unknown")
            (rv.url.getD ""))))
    ∧ (c.claimReview = none →
        query_google_fact_check_api ⟨some (c :: rest)⟩ =
          PyResult.ok (some (formatResult (c.text.getD "Unknown") (c.claimant.getD "Unknown")
            "Unrated" "Unknown" "")))
    ∧ (c.claimReview = some [] →
        query_google_fact_check_api ⟨some (c :: rest)⟩ = PyResult.exn) := by
  refine ⟨⟨?_, ?_⟩, rfl, ?_, ?_, ?_⟩
  · intro h
    cases hr : r.claims with
    | none => exact Or.inl rfl
    | some l =>
      cases l with
      | nil => exact Or.inr rfl
      | cons c2 l2 =>
        exfalso
        unfold query_google_fact_check_api at h
        rw [hr] at h
        dsimp only at h
        cases hrev : Option.getD c2.claimReview [⟨none, none, none⟩] with
        | nil => rw [hrev] at h; exact PyResult.noConfusion h
        | cons rv2 rvs2 =>
          rw [hrev] at h
          dsimp only at h
          exact Option.noConfusion (PyResult.ok.inj h)
  · rintro (h | h) <;> (unfold query_google_fact_check_api; rw [h])
  · intro h
    unfold query_google_fact_check_api
    dsimp only
    rw [h]
    rfl
  · intro h
    unfold query_google_fact_check_api
    dsimp only
    rw [h]
    rfl
  · intro h
    unfold query_google_fact_check_api
    dsimp only
    rw [h]
    rfl

/-- C3, witness: a fully populated first claim is extracted into the
formatted result with no placeholder. -/
theorem lookup_characterization_witness :
    query_google_fact_check_api
      ⟨some [⟨some "The moon is cheese", some "X",
        some [⟨some "False", some ⟨some "Snopes"⟩, some "https://s"⟩]⟩]⟩ =
      PyResult.ok (some (formatResult "The moon is cheese" "X" "False" "Snopes" "https://s")) := by
  have h := lookup_characterization
    ⟨some [⟨some "The moon is cheese", some "X",
      some [⟨some "False", some ⟨some "Snopes"⟩, some "https://s"⟩]⟩]⟩
    ⟨some "The moon is cheese", some "X",
      some [⟨some "False", some ⟨some "Snopes"⟩, some "https://s"⟩]⟩
    [] ⟨some "False", some ⟨some "Snopes"⟩, some "https://s"⟩ []
  exact h.2.2.1 rfl

/-- C4, counterexample: the ephemeral claim identifier derived from
the claim text "Note: the moon is cheese" contains a colon, and the
vote handler raises `ValueError` on the callback payload of the bot's
own vote button for it. -/
theorem vote_handler_colon_payload_raises :
    claimIdOf "Note: the moon is cheese" = "Note:_the_moon_is_cheese"
    ∧ vote_handler (create_vote_buttons (claimIdOf "Note: the moon is cheese")).1 42 [] =
        PyResult.exn :=
  ⟨rfl, by decide⟩

/-- C4, amended: the vote handler is a pure in-memory map operation
that returns normally exactly when the callback payload splits on ":"
into exactly two parts (as it does for every identifier without a
colon); a payload whose derived identifier contains a ":" makes the
split yield more than two parts and the handler raise. -/
theorem vote_handler_raises_iff_split (data : String) (v : Nat) (s : FeedbackStore) :
    (∃ m s1, vote_handler data v s = PyResult.ok (m, s1)) ↔ (pySplitColon data).length = 2 := by
  constructor
  · rintro ⟨m, s1, h⟩
    obtain ⟨t, cid, hsp, _⟩ := vote_handler_ok_inv data v s s1 m h
    rw [hsp]
    rfl
  · intro hlen
    cases hsp : pySplitColon data with
    | nil => rw [hsp] at hlen; simp at hlen
    | cons a l =>
      cases l with
      | nil => rw [hsp] at hlen; simp at hlen
      | cons b l2 =>
        cases l2 with
        | cons c l3 =>
          rw [hsp] at hlen
          simp at hlen
        | nil =>
          unfold vote_handler
          rw [hsp]
          dsimp only
          by_cases hl : (List.lookup (mkVoteKey b v) s).isSome
          · rw [if_pos hl]; exact ⟨_, _, rfl⟩
          · rw [if_neg hl]; exact ⟨_, _, rfl⟩

/-- C4, witness: a well-formed payload with exactly one colon returns
normally. -/
theorem vote_handler_raises_iff_split_witness :
    ∃ m s1, vote_handler "vote_yes:c" 42 [] = PyResult.ok (m, s1) :=
  (vote_handler_raises_iff_split "vote_yes:c" 42 []).mpr (by decide)

/-- C5: whenever the lookup returns the empty result, `factcheck`
invokes the fallback advisor exactly once, the reply text is exactly
the advisor's output, and a failing completion call is caught locally
— the fixed unavailability message is returned and sent, and the
handler does not raise. -/
theorem fallback_invoked_once_exact (u : UserInfo) (args : List String) (w : World)
    (s : List ClaimRec) (hargs : args ≠ []) (hdb : w.dbOk = true)
    (hempty : query_google_fact_check_api w.api = PyResult.ok none) :
    (factcheck u args w s).aiCalls = 1
    ∧ (factcheck u args w s).replies =
        [⟨ai_suggest_fact_check w.ai, some (claimIdOf (pyJoin args))⟩]
    ∧ (factcheck u args w s).raised = false
    ∧ (w.ai = PyResult.exn → ai_suggest_fact_check w.ai = aiUnavailableMsg) := by
  cases args with
  | nil => exact absurd rfl hargs
  | cons a as =>
    simp only [factcheck, hdb, if_true, hempty]
    refine ⟨by trivial, by trivial, by trivial, ?_⟩
    intro hai
    rw [hai]
    rfl

/-- C5, witness: with an empty search result and a failing completion
call, the handler makes exactly one fallback invocation and sends the
fixed unavailability message. -/
theorem fallback_invoked_once_witness :
    (factcheck ⟨5, some "u"⟩ ["the", "moon", "is", "cheese"]
      ⟨true, ⟨none⟩, PyResult.exn⟩ []).aiCalls = 1
    ∧ (factcheck ⟨5, some "u"⟩ ["the", "moon", "is", "cheese"]
        ⟨true, ⟨none⟩, PyResult.exn⟩ []).replies =
      [⟨aiUnavailableMsg, some (claimIdOf (pyJoin ["the", "moon", "is", "cheese"]))⟩] := by
  have h := fallback_invoked_once_exact ⟨5, some "u"⟩ ["the", "moon", "is", "cheese"]
    ⟨true, ⟨none⟩, PyResult.exn⟩ [] (by decide) rfl rfl
  exact ⟨h.1, h.2.1⟩

/-- C6: in `factcheck` with at least one argument, a failing storage
write aborts the handler — the exception propagates (raised), no
lookup is made, no fallback is invoked, no reply is sent, and the
store is unchanged; when the write succeeds the claim is in the store
no matter how the subsequent lookup turns out, i.e. it is written
before the lookup. -/
theorem log_before_lookup_and_abort (u : UserInfo) (args : List String) (w : World)
    (s : List ClaimRec) (hargs : args ≠ []) :
    (w.dbOk = false → factcheck u args w s = ⟨s, 0, 0, [], true⟩)
    ∧ (w.dbOk = true →
        (factcheck u args w s).store = s ++ [⟨u.id, u.username, pyJoin args⟩]) := by
  cases args with
  | nil => exact absurd rfl hargs
  | cons a as =>
    constructor
    · intro hdb
      simp [factcheck, hdb]
    · intro hdb
      exact factcheck_store_append u a as w s hdb

/-- C6, witness: with a failing storage write, `/factcheck x` makes no
lookup or fallback call, sends nothing, raises, and leaves the store
empty. -/
theorem log_before_lookup_witness :
    factcheck ⟨5, some "u"⟩ ["x"] ⟨false, ⟨none⟩, PyResult.exn⟩ [] = ⟨[], 0, 0, [], true⟩ :=
  (log_before_lookup_and_abort ⟨5, some "u"⟩ ["x"] ⟨false, ⟨none⟩, PyResult.exn⟩ []
    (by decide)).1 rfl

/-- C7: a group message triggers the auto fact-check path (the lookup
is performed) when the sender is an admin and the message has at least
4 whitespace-separated words; a non-admin message of any length, and
an admin message of fewer than 4 words, produce no action at all. -/
theorem auto_check_trigger_iff (u : UserInfo) (text : String) (admins : List Nat)
    (w : World) (s : List ClaimRec) :
    ((u.id ∈ admins ∧ 4 ≤ (pyWords text).length) →
      (auto_fact_check u text admins w s).lookupCalls = 1)
    ∧ (u.id ∉ admins → auto_fact_check u text admins w s = ⟨s, 0, 0, [], false⟩)
    ∧ ((pyWords text).length < 4 →
        auto_fact_check u text admins w s = ⟨s, 0, 0, [], false⟩) := by
  refine ⟨?_, ?_, ?_⟩
  · rintro ⟨hmem, hlen⟩
    unfold auto_fact_check
    rw [if_pos hmem, if_neg (by omega)]
    cases hq : query_google_fact_check_api w.api with
    | exn => rfl
    | ok qres =>
      cases qres with
      | none => rfl
      | some t => by_cases ht : t = "" <;> simp [ht]
  · intro hmem
    unfold auto_fact_check
    rw [if_neg hmem]
  · intro hlen
    unfold auto_fact_check
    by_cases hmem : u.id ∈ admins
    · rw [if_pos hmem, if_pos hlen]
    · rw [if_neg hmem]

/-- C7, witness: admin 7 with a 4-word message triggers the lookup;
non-admin 8 with the same message produces no action. -/
theorem auto_check_trigger_witness :
    (auto_fact_check ⟨7, none⟩ "a b c d" [7] ⟨true, ⟨none⟩, PyResult.ok "y"⟩ []).lookupCalls = 1
    ∧ auto_fact_check ⟨8, none⟩ "a b c d" [7] ⟨true, ⟨none⟩, PyResult.ok "y"⟩ [] =
        ⟨[], 0, 0, [], false⟩ :=
  ⟨(auto_check_trigger_iff ⟨7, none⟩ "a b c d" [7] ⟨true, ⟨none⟩, PyResult.ok "y"⟩ []).1
      ⟨by decide, by decide⟩,
   (auto_check_trigger_iff ⟨8, none⟩ "a b c d" [7] ⟨true, ⟨none⟩, PyResult.ok "y"⟩ []).2.1
      (by decide)⟩

/-- C8: `/factcheck` with zero arguments replies with the usage hint
and performs no store write, no lookup and no fallback invocation. -/
theorem factcheck_no_args_usage (u : UserInfo) (w : World) (s : List ClaimRec) :
    factcheck u [] w s = ⟨s, 0, 0, [⟨usageMsg, none⟩], false⟩ := rfl

/-- C9: any two invocations of `/quicknews` send identical reply text
— the fixed string built from the three pre-written trending items —
and make no search or completion API call and no store write. -/
theorem quicknews_static (u u2 : UserInfo) (w w2 : World) (s s2 : List ClaimRec) :
    (quicknews u w s).replies = (quicknews u2 w2 s2).replies
    ∧ (quicknews u w s).replies =
        [⟨"🔥 *Trending Fact-Checks:*\n\n" ++ String.intercalate "\n\n" trending, none⟩]
    ∧ (quicknews u w s).lookupCalls = 0
    ∧ (quicknews u w s).aiCalls = 0
    ∧ (quicknews u w s).store = s
    ∧ (quicknews u w s).raised = false :=
  ⟨rfl, rfl, rfl, rfl, rfl, rfl⟩

/-- C10: one voter's button press never causes another voter's first
vote to be rejected as a duplicate: for distinct voters, if voter v's
press on some payload would be accepted in store s, it is still
accepted after voter u's press (on the same or any other payload) has
been processed. -/
theorem votes_independent_across_voters (d1 d2 : String) (u v : Nat) (huv : u ≠ v)
    (s : FeedbackStore) (m1 : String) (s1 : FeedbackStore)
    (h1 : vote_handler d1 u s = PyResult.ok (m1, s1))
    (h2 : ∃ s2, vote_handler d2 v s = PyResult.ok (thanksMsg, s2)) :
    ∃ s3, vote_handler d2 v s1 = PyResult.ok (thanksMsg, s3) := by
  obtain ⟨s2, h2⟩ := h2
  obtain ⟨t2, c2, hsp2, hcase2⟩ := vote_handler_ok_inv d2 v s s2 thanksMsg h2
  have hlook2 : List.lookup (mkVoteKey c2 v) s = none := by
    rcases hcase2 with ⟨_, hmsg, _⟩ | ⟨hn, _, _⟩
    · exact absurd hmsg (by decide)
    · exact hn
  obtain ⟨t1, c1, hsp1, hcase1⟩ := vote_handler_ok_inv d1 u s s1 m1 h1
  have hne : mkVoteKey c2 v ≠ mkVoteKey c1 u := by
    intro he
    exact huv ((mkVoteKey_inj c2 c1 v u he).2).symm
  have hs1 : List.lookup (mkVoteKey c2 v) s1 = none := by
    rcases hcase1 with ⟨_, _, hset⟩ | ⟨_, _, hset⟩
    · rw [hset]; exact hlook2
    · rw [hset, lookup_cons_ne _ _ _ _ hne]; exact hlook2
  refine ⟨(mkVoteKey c2 v, t2) :: s1, ?_⟩
  unfold vote_handler
  rw [hsp2]
  dsimp only
  rw [hs1]
  rfl

/-- C10, witness: voters 1 and 2 vote on the same identifier "c";
voter 2's first vote is still accepted after voter 1's vote has been
recorded. -/
theorem votes_independent_witness :
    ∃ s3, vote_handler "vote_no:c" 2 [(mkVoteKey "c" 1, "vote_yes")] =
      PyResult.ok (thanksMsg, s3) :=
  votes_independent_across_voters "vote_yes:c" "vote_no:c" 1 2 (by decide) [] thanksMsg
    [(mkVoteKey "c" 1, "vote_yes")] (by decide) ⟨[(mkVoteKey "c" 2, "vote_no")], by decide⟩

end FactCheckMate
